import Mathlib

/-!
PYKids backend — verification of the progress-update logic.

Shallow embedding of the Flask handlers in `src/app.py` (and the identical
auth prologue in `src/pykids-backend/app.py`).

* `checkAuth` embeds the Authorization-header / token-verification / uid
  comparison prologue shared by the handlers (lines 123-129 of
  `src/app.py`, lines 35-41 of `src/pykids-backend/app.py`).
* `updateUserProgressHandler` embeds the reachable control flow of
  `update_user_progress`: the validation at line 137 reads the undefined
  name `null`, so whenever `moduleId` and `topicId` are both truthy the
  handler raises `NameError`, which the catch-all converts to a 500
  response; the database is never touched on any path.
* `mergeProgress` embeds the merge computation of lines 158-172 (the code
  that would run if the validation line did not raise): the nested
  progress-dict update, the `is_new_completion` crediting guard, the
  total-score addition and the `last_active_lesson` assignment.

Progress dicts are modelled as `String → Option (String → Option TopicStatus)`;
an absent key is `none`, matching the Python `dict.get` calls with `{}`
defaults. Timestamps (`datetime.now().isoformat()`) are modelled as an
abstract `Nat` tick supplied to the merge. JSON integer scores are
modelled as `Int` — the code performs no sign check on them.
-/

/-- Value stored at `current_progress[module_id][topic_id]`: a dict with
keys `completed`, `score`, `completedAt`. -/
structure TopicStatus where
  completed : Bool
  score : Int
  completedAt : Option Nat
deriving DecidableEq, Repr

/-- Topic dict of one module: `topicId → TopicStatus`, absent keys are `none`. -/
def ModuleProgress : Type := String → Option TopicStatus

/-- The per-user progress dict: `moduleId → topic dict`. -/
def Progress : Type := String → Option ModuleProgress

/-- `current_progress.get(module_id, {})`. -/
def getModule (p : Progress) (m : String) : ModuleProgress :=
  (p m).getD (fun _ => none)

/-- `current_progress.get(module_id, {}).get(topic_id, {})`, as an `Option`
(`none` mirrors the `{}` default, with per-field defaults applied by the
`cur*` accessors below). -/
def getTopic (p : Progress) (m t : String) : Option TopicStatus :=
  getModule p m t

/-- `....get(topic_id, {}).get("completed", False)` — key lookup with
default `False` (the Python source spells the string literals with
single quotes). -/
def curCompleted (p : Progress) (m t : String) : Bool :=
  match getTopic p m t with
  | some ts => ts.completed
  | none => false

/-- `....get(topic_id, {}).get("score", 0)`. -/
def curScore (p : Progress) (m t : String) : Int :=
  match getTopic p m t with
  | some ts => ts.score
  | none => 0

/-- `....get(topic_id, {}).get("completedAt")`. -/
def curCompletedAt (p : Progress) (m t : String) : Option Nat :=
  match getTopic p m t with
  | some ts => ts.completedAt
  | none => none

/-- Lines 161-163: `if module_id not in current_progress:
current_progress[module_id] = {}` followed by the assignment
`current_progress[module_id][topic_id] = status`. -/
def setTopic (p : Progress) (m t : String) (ts : TopicStatus) : Progress :=
  fun m' =>
    if m' = m then
      some (fun t' => if t' = t then some ts else getModule p m t')
    else p m'

/-- The per-user row touched by `update_user_progress`: the columns
`progress`, `total_score`, `last_active_lesson`. -/
structure UserRecord where
  progress : Progress
  totalScore : Int
  lastActiveLesson : Option (String × String)

/-- The row inserted on user creation (line 106 of `src/app.py`):
`progress` is the empty dict, `total_score` is 0, `last_active_lesson`
is NULL. -/
def freshRecord : UserRecord where
  progress := fun _ => none
  totalScore := 0
  lastActiveLesson := none

/-- Lines 158-172 of `src/app.py`: merge one completion event into the row.
`score = none` models an absent `score` key; `completedAt` is written from
the abstract clock `now` whenever `completed` is true.

The embedded statements, in order:
`is_new_completion = completed and (not ...get("completed", False))`;
the dict written back has `completed` verbatim, `score` defaulting to the
stored score when the event carries none, and `completedAt` set to the
current time whenever `completed` is true and retained otherwise;
`new_score = score if is_new_completion and score is not None else 0`;
`total_score = user["total_score"] + new_score`;
`last_active_lesson = {"moduleId": module_id, "topicId": topic_id}`. -/
def mergeProgress (rec : UserRecord) (moduleId topicId : String)
    (completed : Bool) (score : Option Int) (now : Nat) : UserRecord where
  progress := setTopic rec.progress moduleId topicId
    { completed := completed
      score := score.getD (curScore rec.progress moduleId topicId)
      completedAt :=
        if completed then some now
        else curCompletedAt rec.progress moduleId topicId }
  totalScore := rec.totalScore +
    (if (completed && !curCompleted rec.progress moduleId topicId)
        && score.isSome
     then score.getD 0 else 0)
  lastActiveLesson := some (moduleId, topicId)

/-- A `PUT /progress` body together with the clock reading of the call,
for iterating `mergeProgress` over a sequence of calls. -/
structure CompletionEvent where
  moduleId : String
  topicId : String
  completed : Bool
  score : Option Int
  now : Nat

/-- Apply one event to the row. -/
def applyEvent (rec : UserRecord) (e : CompletionEvent) : UserRecord :=
  mergeProgress rec e.moduleId e.topicId e.completed e.score e.now

/-- Apply a sequence of progress-update calls in order. -/
def applyEvents (rec : UserRecord) (es : List CompletionEvent) : UserRecord :=
  es.foldl applyEvent rec

/-! HTTP handlers: reachable control flow. -/

/-- Outcome of the shared auth prologue (lines 123-129). -/
inductive AuthResult where
  | unauthenticated401
  | internalError500
  | unauthorized403
  | ok (uid : String)
deriving DecidableEq, Repr

/-- `auth_header.split("Bearer ")[1]` for a header that starts with
`Bearer` and a space: everything after those 7 characters. -/
def bearerToken (h : String) : String := h.drop 7

/-- `auth_header.startswith("Bearer ")` — whether the header begins with
`Bearer` followed by a space, computed over the character list. -/
def headerIsBearer (h : String) : Bool :=
  "Bearer ".data.isPrefixOf h.data

/-- Lines 123-129 of `src/app.py` (identically lines 35-41 of
`src/pykids-backend/app.py`): missing or non-Bearer header → 401;
`auth.verify_id_token` is the external verifier, modelled as
`verify : String → Option String` — a `none` result models the exception
that the catch-all turns into a 500 response; a `uid` differing from the
path `userId` → 403; otherwise the handler proceeds. -/
def checkAuth (authHeader : Option String) (verify : String → Option String)
    (userId : String) : AuthResult :=
  match authHeader with
  | none => .unauthenticated401
  | some h =>
    if headerIsBearer h then
      match verify (bearerToken h) with
      | none => .internalError500
      | some uid => if uid ≠ userId then .unauthorized403 else .ok uid
    else .unauthenticated401

/-- HTTP status of a handler response. -/
inductive HandlerResponse where
  | status200
  | status400
  | status401
  | status403
  | status404
  | status500
deriving DecidableEq, Repr

/-- Python truthiness test `not s` for a string pulled out of the JSON
body with `data.get(...)`: absent (None) or empty. -/
def pyFalsy : Option String → Bool
  | none => true
  | some s => s = ""

/-- Function `update_user_progress` (lines 120-194 of `src/app.py`),
reachable paths only. After the auth prologue, line 137 evaluates
`not module_id or not topic_id or completed is null` left to right: a
falsy `module_id` or `topic_id` short-circuits to the 400 response;
otherwise the undefined name `null` raises `NameError`, caught by the
catch-all as a 500. The `completed` and `score` body values are read
(lines 134-135) but never used before the exception; the
SELECT / merge / UPDATE code (lines 140-192) is unreachable, so the
stored row `db` is returned unchanged on every path. -/
def updateUserProgressHandler (authHeader : Option String)
    (verify : String → Option String) (userId : String)
    (moduleId topicId : Option String) (completed : Option Bool)
    (score : Option Int) (db : Option UserRecord) :
    HandlerResponse × Option UserRecord :=
  match checkAuth authHeader verify userId, completed, score with
  | .unauthenticated401, _, _ => (.status401, db)
  | .internalError500, _, _ => (.status500, db)
  | .unauthorized403, _, _ => (.status403, db)
  | .ok _, _, _ =>
    if pyFalsy moduleId || pyFalsy topicId then (.status400, db)
    else (.status500, db)

/-- Function `get_user_profile` (lines 31-60 of `src/app.py`, lines 32-61
of `src/pykids-backend/app.py`): auth prologue, then a read-only SELECT
returning 404 when the row is absent and 200 with the row otherwise. -/
def getUserProfileHandler (authHeader : Option String)
    (verify : String → Option String) (userId : String)
    (db : String → Option UserRecord) : HandlerResponse :=
  match checkAuth authHeader verify userId with
  | .unauthenticated401 => .status401
  | .internalError500 => .status500
  | .unauthorized403 => .status403
  | .ok _ =>
    match db userId with
    | none => .status404
    | some _ => .status200

/-! Sample data for witnesses and counterexamples. -/

/-- A topic already completed with score 5 at time 1. -/
def topic1 : TopicStatus where
  completed := true
  score := 5
  completedAt := some 1

/-- A progress dict holding exactly the entry `m1 → t1 → topic1`. -/
def prog1 : Progress :=
  fun m =>
    if m = "m1" then some (fun t => if t = "t1" then some topic1 else none)
    else none

/-- A row with `prog1` and total score 5. -/
def rec1 : UserRecord where
  progress := prog1
  totalScore := 5
  lastActiveLesson := none

/-! Helper lemmas. -/

theorem mergeProgress_progress (rec : UserRecord) (m t : String) (c : Bool)
    (s : Option Int) (now : Nat) :
    (mergeProgress rec m t c s now).progress =
      setTopic rec.progress m t
        { completed := c
          score := s.getD (curScore rec.progress m t)
          completedAt :=
            if c then some now else curCompletedAt rec.progress m t } := rfl

theorem mergeProgress_totalScore (rec : UserRecord) (m t : String) (c : Bool)
    (s : Option Int) (now : Nat) :
    (mergeProgress rec m t c s now).totalScore =
      rec.totalScore +
        (if (c && !curCompleted rec.progress m t) && s.isSome
         then s.getD 0 else 0) := rfl

theorem getTopic_setTopic_same (p : Progress) (m t : String) (ts : TopicStatus) :
    getTopic (setTopic p m t ts) m t = some ts := by
  simp [getTopic, getModule, setTopic]

theorem getTopic_setTopic_ne (p : Progress) (m t : String) (ts : TopicStatus)
    (m' t' : String) (h : ¬(m' = m ∧ t' = t)) :
    getTopic (setTopic p m t ts) m' t' = getTopic p m' t' := by
  by_cases hm : m' = m
  · subst hm
    have ht : t' ≠ t := fun ht => h ⟨rfl, ht⟩
    simp [getTopic, getModule, setTopic, ht]
  · simp [getTopic, getModule, setTopic, hm]

theorem curCompleted_merge_same (rec : UserRecord) (m t : String) (c : Bool)
    (s : Option Int) (now : Nat) :
    curCompleted (mergeProgress rec m t c s now).progress m t = c := by
  simp [curCompleted, mergeProgress_progress, getTopic_setTopic_same]

theorem curScore_merge_same (rec : UserRecord) (m t : String) (c : Bool)
    (s : Option Int) (now : Nat) :
    curScore (mergeProgress rec m t c s now).progress m t =
      s.getD (curScore rec.progress m t) := by
  simp [curScore, mergeProgress_progress, getTopic_setTopic_same]

theorem curCompletedAt_merge_same (rec : UserRecord) (m t : String) (c : Bool)
    (s : Option Int) (now : Nat) :
    curCompletedAt (mergeProgress rec m t c s now).progress m t =
      if c then some now else curCompletedAt rec.progress m t := by
  simp [curCompletedAt, mergeProgress_progress, getTopic_setTopic_same]

theorem applyEvent_totalScore_mono (rec : UserRecord) (e : CompletionEvent)
    (h : ∀ v, e.score = some v → 0 ≤ v) :
    rec.totalScore ≤ (applyEvent rec e).totalScore := by
  unfold applyEvent
  rw [mergeProgress_totalScore]
  have : 0 ≤ (if (e.completed && !curCompleted rec.progress e.moduleId e.topicId)
      && e.score.isSome then e.score.getD 0 else 0) := by
    split
    · cases hs : e.score with
      | none => simp
      | some v => simpa using h v hs
    · exact le_refl 0
  exact le_add_of_nonneg_right this

theorem applyEvents_totalScore_mono (es : List CompletionEvent)
    (rec : UserRecord) (h : ∀ e ∈ es, ∀ v, e.score = some v → 0 ≤ v) :
    rec.totalScore ≤ (applyEvents rec es).totalScore := by
  induction es generalizing rec with
  | nil => exact le_refl _
  | cons e es ih =>
    have h1 : rec.totalScore ≤ (applyEvent rec e).totalScore :=
      applyEvent_totalScore_mono rec e (h e (List.mem_cons_self e es))
    have h2 : (applyEvent rec e).totalScore ≤
        (applyEvents (applyEvent rec e) es).totalScore :=
      ih (applyEvent rec e) (fun e2 he2 => h e2 (List.mem_cons_of_mem e he2))
    exact le_trans h1 h2

/-! Claim theorems. -/

/-- C1, counterexample: the claim says the score of a topic is added to
`totalScore` at most once across ANY sequence of progress-update calls.
On the code, the sequence complete(score 10), uncomplete, complete(score
10) for the single topic (m1, t1), starting from a fresh record, yields
`totalScore = 20`: the one score of 10 is credited twice. -/
theorem c1_counterexample :
    (applyEvents freshRecord
      [⟨"m1", "t1", true, some 10, 0⟩,
       ⟨"m1", "t1", false, some 10, 1⟩,
       ⟨"m1", "t1", true, some 10, 2⟩]).totalScore = 20 ∧
    (20 : Int) ≠ 10 := by
  constructor
  · decide
  · decide

/-- C1, amended: replaying a completion event with `completed = true` on a
topic never credits a second time — after one application the topic is
stored as completed, so an immediately repeated identical event leaves
`totalScore` unchanged; and when the topic was not completed before, the
first application credits exactly the submitted score. (The unrestricted
"at most once across any sequence" fails because an interleaved
`completed = false` event resets the stored flag; see the counterexample.) -/
theorem c1_amended (rec : UserRecord) (m t : String) (s : Int) (n1 n2 : Nat) :
    (mergeProgress (mergeProgress rec m t true (some s) n1)
        m t true (some s) n2).totalScore =
      (mergeProgress rec m t true (some s) n1).totalScore ∧
    (curCompleted rec.progress m t = false →
      (mergeProgress rec m t true (some s) n1).totalScore =
        rec.totalScore + s) := by
  constructor
  · rw [mergeProgress_totalScore (mergeProgress rec m t true (some s) n1),
      curCompleted_merge_same]
    simp
  · intro h
    rw [mergeProgress_totalScore, h]
    simp

/-- C1 amended, witness at a concrete input: from a fresh record, the
first completion of (m1, t1) with score 10 credits 10, and replaying the
identical event leaves the total unchanged. -/
theorem c1_amended_witness :
    (mergeProgress (mergeProgress freshRecord "m1" "t1" true (some 10) 0)
        "m1" "t1" true (some 10) 1).totalScore =
      (mergeProgress freshRecord "m1" "t1" true (some 10) 0).totalScore ∧
    (mergeProgress freshRecord "m1" "t1" true (some 10) 0).totalScore =
      freshRecord.totalScore + 10 :=
  ⟨(c1_amended freshRecord "m1" "t1" 10 0 1).1,
   (c1_amended freshRecord "m1" "t1" 10 0 1).2 (by decide)⟩

/-- C2, counterexample: the claim says a non-null `completedAt` is never
changed by a further completion event. On the code, the dict written at
line 166 sets `completedAt` to `datetime.now()` whenever the event has
`completed = true`, with no guard on the existing value: for the record
`rec1`, whose topic (m1, t1) has `completedAt = 1`, a replayed completion
event at time 2 overwrites it to 2. -/
theorem c2_counterexample :
    curCompletedAt rec1.progress "m1" "t1" = some 1 ∧
    curCompletedAt (mergeProgress rec1 "m1" "t1" true (some 5) 2).progress
      "m1" "t1" = some 2 ∧
    (some 2 : Option Nat) ≠ some 1 := by
  refine ⟨by decide, ?_, by decide⟩
  decide

/-- C2, amended: every event with `completed = true` stamps `completedAt`
with the current call time, overwriting any previously stored value; an
event with `completed = false` retains the stored `completedAt`. -/
theorem c2_amended (rec : UserRecord) (m t : String) (c : Bool)
    (s : Option Int) (now : Nat) :
    curCompletedAt (mergeProgress rec m t c s now).progress m t =
      if c then some now else curCompletedAt rec.progress m t :=
  curCompletedAt_merge_same rec m t c s now

/-- C3: for every progress-update request that passes the access guard and
carries truthy (non-empty) `moduleId` and `topicId`, the validation at
line 137 evaluates the undefined name `null`, raising `NameError`; the
catch-all returns the 500 response and the stored row is unchanged — the
merge and the UPDATE are unreachable. -/
theorem c3_validation_raises (hdr : Option String)
    (verify : String → Option String) (userId uid : String)
    (mId tId : Option String) (c : Option Bool) (s : Option Int)
    (db : Option UserRecord)
    (hauth : checkAuth hdr verify userId = .ok uid)
    (hm : pyFalsy mId = false) (ht : pyFalsy tId = false) :
    updateUserProgressHandler hdr verify userId mId tId c s db =
      (.status500, db) := by
  unfold updateUserProgressHandler
  rw [hauth]
  simp [hm, ht]

/-- C3, witness: a fully valid request (valid token for the path user,
non-empty ids, boolean `completed`, a score) still gets the 500 response
with the row untouched. -/
theorem c3_validation_raises_witness :
    checkAuth (some "Bearer tok") (fun _ => some "u1") "u1" = .ok "u1" ∧
    updateUserProgressHandler (some "Bearer tok") (fun _ => some "u1") "u1"
      (some "m1") (some "t1") (some true) (some 10) none =
      (.status500, none) :=
  ⟨by decide,
   c3_validation_raises (some "Bearer tok") (fun _ => some "u1") "u1" "u1"
     (some "m1") (some "t1") (some true) (some 10) none
     (by decide) (by decide) (by decide)⟩

/-- C4, code behaviour at the failing input: an authenticated request with
non-empty `moduleId = m1`, `topicId = t1` and the `completed` key ABSENT
from the body should, per the claim, be rejected 400 `InvalidRequest`;
the code instead reaches `completed is null` in line 137, raises
`NameError` (the name `null` is undefined in the program) and returns 500.
The intent is unmistakable — the 400 error message in line 138 reads
"moduleId, topicId, and completed are required" — so this is a slip for
`completed is None`, and the claim matches the intended validation. -/
theorem c4_code_behavior :
    (updateUserProgressHandler (some "Bearer tok2") (fun _ => some "u2")
      "u2" (some "m1") (some "t1") none none none).1 = .status500 ∧
    HandlerResponse.status500 ≠ .status400 := by
  constructor
  · decide
  · decide

/-- C5: on a topic already stored as completed, a further event with
`completed = true` leaves `totalScore` unchanged (`is_new_completion` is
false) while the stored per-topic score becomes the score of the event
when one is provided and is retained otherwise. -/
theorem c5_score_correction (rec : UserRecord) (m t : String)
    (s : Option Int) (now : Nat)
    (h : curCompleted rec.progress m t = true) :
    (mergeProgress rec m t true s now).totalScore = rec.totalScore ∧
    curScore (mergeProgress rec m t true s now).progress m t =
      s.getD (curScore rec.progress m t) := by
  constructor
  · rw [mergeProgress_totalScore, h]
    simp
  · exact curScore_merge_same rec m t true s now

/-- C5, witness: on `rec1` (topic (m1, t1) completed with score 5, total
5), a correcting event with score 9 leaves the total at 5 and stores 9. -/
theorem c5_score_correction_witness :
    (mergeProgress rec1 "m1" "t1" true (some 9) 7).totalScore =
      rec1.totalScore ∧
    curScore (mergeProgress rec1 "m1" "t1" true (some 9) 7).progress
      "m1" "t1" = (some (9 : Int)).getD (curScore rec1.progress "m1" "t1") :=
  c5_score_correction rec1 "m1" "t1" (some 9) 7 (by decide)

/-- C6: every merge, whatever the value of `completed` and whether any
crediting happens, sets `last_active_lesson` to exactly the module / topic
pair of the event (line 172). -/
theorem c6_last_active (rec : UserRecord) (m t : String) (c : Bool)
    (s : Option Int) (now : Nat) :
    (mergeProgress rec m t c s now).lastActiveLesson = some (m, t) := rfl

/-- C7: merging an event for a (module, topic) pair not present in the
progress dict yields the old dict plus exactly one new entry at that pair
— the new entry carries the event fields with the defaults of an unseen
topic (score defaults to 0 when the event has none, `completedAt` to the
clock when completing and to null otherwise) — and every other
(module, topic) lookup, in particular every pair never written, is
exactly as before. -/
theorem c7_lazy_frame (rec : UserRecord) (em et : String) (c : Bool)
    (s : Option Int) (now : Nat)
    (h : getTopic rec.progress em et = none) :
    getTopic (mergeProgress rec em et c s now).progress em et =
      some { completed := c
             score := s.getD 0
             completedAt := if c then some now else none } ∧
    ∀ m t, ¬(m = em ∧ t = et) →
      getTopic (mergeProgress rec em et c s now).progress m t =
        getTopic rec.progress m t := by
  constructor
  · rw [mergeProgress_progress, getTopic_setTopic_same]
    simp [curScore, curCompletedAt, h]
  · intro m t hne
    rw [mergeProgress_progress, getTopic_setTopic_ne _ _ _ _ _ _ hne]

/-- C7, witness: on `rec1`, an event for the unseen pair (m2, t9) creates
exactly that entry and leaves the existing (m1, t1) entry untouched. -/
theorem c7_lazy_frame_witness :
    getTopic (mergeProgress rec1 "m2" "t9" true (some 3) 4).progress
      "m2" "t9" =
      some { completed := true
             score := (some (3 : Int)).getD 0
             completedAt := if true then some 4 else none } ∧
    getTopic (mergeProgress rec1 "m2" "t9" true (some 3) 4).progress
      "m1" "t1" = getTopic rec1.progress "m1" "t1" :=
  ⟨(c7_lazy_frame rec1 "m2" "t9" true (some 3) 4 (by decide)).1,
   (c7_lazy_frame rec1 "m2" "t9" true (some 3) 4 (by decide)).2
     "m1" "t1" (by decide)⟩

/-- C8, counterexample: the claim says a request with no VALID bearer
token fails 401. On the code, a request whose header is well-formed but
whose token fails verification (`auth.verify_id_token` raises) is caught
by the catch-all and answered 500, not 401; only a missing or
non-`Bearer` header yields 401. -/
theorem c8_counterexample :
    getUserProfileHandler (some "Bearer badtoken") (fun _ => none) "u1"
      (fun _ => none) = .status500 ∧
    HandlerResponse.status500 ≠ .status401 := by
  constructor
  · decide
  · decide

/-- C8, amended: the stored row is never touched by the progress handler
(on failure or otherwise); a missing or non-`Bearer` Authorization header
yields 401; a well-formed header whose token fails verification yields
500 (the verifier exception reaches the catch-all), not 401; a verified
uid different from the path userId yields 403; and the access guard lets
the call proceed exactly when the verified uid equals the path userId —
the guard passes only with the matching uid, and a token verifying to the
path userId does pass the guard. -/
theorem c8_amended (hdr : Option String) (verify : String → Option String)
    (userId : String) (mId tId : Option String) (c : Option Bool)
    (s : Option Int) (db : Option UserRecord) :
    (updateUserProgressHandler hdr verify userId mId tId c s db).2 = db ∧
    (hdr = none →
      checkAuth hdr verify userId = .unauthenticated401 ∧
      (updateUserProgressHandler hdr verify userId mId tId c s db).1 =
        .status401) ∧
    (∀ h, hdr = some h → headerIsBearer h = false →
      checkAuth hdr verify userId = .unauthenticated401 ∧
      (updateUserProgressHandler hdr verify userId mId tId c s db).1 =
        .status401) ∧
    (∀ h, hdr = some h → headerIsBearer h = true →
      verify (bearerToken h) = none →
      checkAuth hdr verify userId = .internalError500 ∧
      (updateUserProgressHandler hdr verify userId mId tId c s db).1 =
        .status500) ∧
    (∀ h uid, hdr = some h → headerIsBearer h = true →
      verify (bearerToken h) = some uid → uid ≠ userId →
      checkAuth hdr verify userId = .unauthorized403 ∧
      (updateUserProgressHandler hdr verify userId mId tId c s db).1 =
        .status403) ∧
    (∀ uid, checkAuth hdr verify userId = .ok uid → uid = userId) ∧
    (∀ h, hdr = some h → headerIsBearer h = true →
      verify (bearerToken h) = some userId →
      checkAuth hdr verify userId = .ok userId) := by
  refine ⟨?_, ?_, ?_, ?_, ?_, ?_, ?_⟩
  · unfold updateUserProgressHandler
    rcases checkAuth hdr verify userId with _ | _ | _ | uid
    · rfl
    · rfl
    · rfl
    · dsimp only
      split <;> rfl
  · intro hn
    subst hn
    exact ⟨rfl, rfl⟩
  · intro h hh hb
    subst hh
    have hc : checkAuth (some h) verify userId = .unauthenticated401 := by
      simp [checkAuth, hb]
    refine ⟨hc, ?_⟩
    unfold updateUserProgressHandler
    rw [hc]
  · intro h hh hb hv
    subst hh
    have hc : checkAuth (some h) verify userId = .internalError500 := by
      simp [checkAuth, hb, hv]
    refine ⟨hc, ?_⟩
    unfold updateUserProgressHandler
    rw [hc]
  · intro h uid hh hb hv hne
    subst hh
    have hc : checkAuth (some h) verify userId = .unauthorized403 := by
      simp [checkAuth, hb, hv, hne]
    refine ⟨hc, ?_⟩
    unfold updateUserProgressHandler
    rw [hc]
  · intro uid hok
    unfold checkAuth at hok
    rcases hdr with _ | h
    · exact absurd hok (by simp)
    · dsimp only at hok
      by_cases hb : headerIsBearer h
      · rw [if_pos hb] at hok
        rcases hv : verify (bearerToken h) with _ | uid2
        · rw [hv] at hok
          exact absurd hok (by simp)
        · rw [hv] at hok
          dsimp only at hok
          by_cases heq : uid2 = userId
          · rw [if_neg (fun hne => hne heq)] at hok
            cases hok
            exact heq
          · rw [if_pos heq] at hok
            exact absurd hok (by simp)
      · rw [if_neg hb] at hok
        exact absurd hok (by simp)
  · intro h hh hb hv
    subst hh
    simp [checkAuth, hb, hv]

/-- C8 amended, witness: with a token verifying to alice but the path
user bob, the progress handler answers 403 and leaves the row as it was;
and the same token verifying to bob itself passes the access guard. -/
theorem c8_amended_witness :
    (updateUserProgressHandler (some "Bearer tok")
        (fun tk => if tk = "tok" then some "alice" else none) "bob"
        (some "m1") (some "t1") (some true) none (some freshRecord)).2 =
      some freshRecord ∧
    checkAuth (some "Bearer tok")
        (fun tk => if tk = "tok" then some "alice" else none) "bob" =
      .unauthorized403 ∧
    (updateUserProgressHandler (some "Bearer tok")
        (fun tk => if tk = "tok" then some "alice" else none) "bob"
        (some "m1") (some "t1") (some true) none (some freshRecord)).1 =
      .status403 ∧
    checkAuth (some "Bearer tok")
        (fun tk => if tk = "tok" then some "bob" else none) "bob" =
      .ok "bob" :=
  ⟨(c8_amended (some "Bearer tok")
      (fun tk => if tk = "tok" then some "alice" else none) "bob"
      (some "m1") (some "t1") (some true) none (some freshRecord)).1,
   ((c8_amended (some "Bearer tok")
      (fun tk => if tk = "tok" then some "alice" else none) "bob"
      (some "m1") (some "t1") (some true) none
      (some freshRecord)).2.2.2.2.1 "Bearer tok" "alice" rfl (by decide)
      (by decide) (by decide)).1,
   ((c8_amended (some "Bearer tok")
      (fun tk => if tk = "tok" then some "alice" else none) "bob"
      (some "m1") (some "t1") (some true) none
      (some freshRecord)).2.2.2.2.1 "Bearer tok" "alice" rfl (by decide)
      (by decide) (by decide)).2,
   (c8_amended (some "Bearer tok")
      (fun tk => if tk = "tok" then some "bob" else none) "bob"
      (some "m1") (some "t1") (some true) none
      (some freshRecord)).2.2.2.2.2.2 "Bearer tok" rfl (by decide)
      (by decide)⟩

/-- C9, counterexample: the claim says `totalScore` is non-negative and
never decreases. The code adds the submitted score with no sign check:
from a fresh record (total 0), a single completion event carrying score
-5 drives the total to -5 — negative, and below its previous value. -/
theorem c9_counterexample :
    freshRecord.totalScore = 0 ∧
    (applyEvent freshRecord ⟨"m1", "t1", true, some (-5), 0⟩).totalScore =
      -5 ∧
    ¬((0 : Int) ≤ -5) := by
  refine ⟨by decide, ?_, by decide⟩
  decide

/-- C9, amended: when every event in the sequence that carries a score
carries a non-negative one, `totalScore` is monotonically non-decreasing
along the sequence, and stays non-negative when it starts non-negative
(in particular from the fresh record, whose total is 0). -/
theorem c9_amended (rec : UserRecord) (es : List CompletionEvent)
    (h : ∀ e ∈ es, ∀ v, e.score = some v → 0 ≤ v) :
    rec.totalScore ≤ (applyEvents rec es).totalScore ∧
    (0 ≤ rec.totalScore → 0 ≤ (applyEvents rec es).totalScore) :=
  ⟨applyEvents_totalScore_mono es rec h,
   fun h0 => le_trans h0 (applyEvents_totalScore_mono es rec h)⟩

/-- C9 amended, witness: two non-negatively scored completions from the
fresh record keep the total at or above its start and non-negative. -/
theorem c9_amended_witness :
    freshRecord.totalScore ≤
      (applyEvents freshRecord
        [⟨"m1", "t1", true, some 5, 0⟩,
         ⟨"m2", "t2", true, some 7, 1⟩]).totalScore ∧
    (0 ≤ freshRecord.totalScore →
      0 ≤ (applyEvents freshRecord
        [⟨"m1", "t1", true, some 5, 0⟩,
         ⟨"m2", "t2", true, some 7, 1⟩]).totalScore) :=
  c9_amended freshRecord
    [⟨"m1", "t1", true, some 5, 0⟩, ⟨"m2", "t2", true, some 7, 1⟩]
    (by
      intro e he v hv
      simp only [List.mem_cons, List.not_mem_nil, or_false] at he
      rcases he with rfl | rfl <;> simp_all <;> omega)

/-- C10: the merge stores the `completed` value of the event verbatim, so
an event with `completed = false` on an already-completed topic resets the
stored flag to false while retaining `completedAt` and leaving
`totalScore` unchanged; a subsequent event with `completed = true` and a
score then passes the `is_new_completion` guard again and credits the
total a second time for the same topic. -/
theorem c10_uncomplete_recredit (rec : UserRecord) (m t : String)
    (s1 : Option Int) (n1 : Nat)
    (h : curCompleted rec.progress m t = true) :
    curCompleted (mergeProgress rec m t false s1 n1).progress m t = false ∧
    curCompletedAt (mergeProgress rec m t false s1 n1).progress m t =
      curCompletedAt rec.progress m t ∧
    (mergeProgress rec m t false s1 n1).totalScore = rec.totalScore ∧
    ∀ (v : Int) (n2 : Nat),
      (mergeProgress (mergeProgress rec m t false s1 n1) m t true
          (some v) n2).totalScore =
        (mergeProgress rec m t false s1 n1).totalScore + v := by
  refine ⟨curCompleted_merge_same rec m t false s1 n1, ?_, ?_, ?_⟩
  · rw [curCompletedAt_merge_same]
    simp
  · rw [mergeProgress_totalScore]
    simp
  · intro v n2
    rw [mergeProgress_totalScore (mergeProgress rec m t false s1 n1),
      curCompleted_merge_same]
    simp

/-- C10, witness: on `rec1` (topic (m1, t1) completed at time 1, total 5),
an uncompleting event resets the flag, keeps `completedAt = 1` and the
total at 5, and a following completion with score 7 credits to 12. -/
theorem c10_uncomplete_recredit_witness :
    curCompleted (mergeProgress rec1 "m1" "t1" false none 3).progress
      "m1" "t1" = false ∧
    curCompletedAt (mergeProgress rec1 "m1" "t1" false none 3).progress
      "m1" "t1" = curCompletedAt rec1.progress "m1" "t1" ∧
    (mergeProgress rec1 "m1" "t1" false none 3).totalScore =
      rec1.totalScore ∧
    (mergeProgress (mergeProgress rec1 "m1" "t1" false none 3) "m1" "t1"
        true (some 7) 4).totalScore =
      (mergeProgress rec1 "m1" "t1" false none 3).totalScore + 7 :=
  ⟨(c10_uncomplete_recredit rec1 "m1" "t1" none 3 (by decide)).1,
   (c10_uncomplete_recredit rec1 "m1" "t1" none 3 (by decide)).2.1,
   (c10_uncomplete_recredit rec1 "m1" "t1" none 3 (by decide)).2.2.1,
   (c10_uncomplete_recredit rec1 "m1" "t1" none 3 (by decide)).2.2.2 7 4⟩
